import Mathlib

/-
  Shallow embedding of the Dominion Gateway request pipeline:
  quota middleware (src/server/src/middleware/quota.ts), usage repository
  (usage records repository source file), LLM service
  (src/server/src/services/llm.ts), LLM routes (llm routes source file),
  API key repository (src/server/src/db/repositories/api-keys.ts),
  auth middleware (authentication middleware source file) and the static
  configuration tables (src/server/src/config/index.ts).
-/

namespace Gateway

/-! ## Static configuration tables (config/index.ts) -/

/-- Cost per 1K tokens for one model, from the TOKEN_COSTS table. -/
structure TokenCost where
  inputRate : ℚ
  outputRate : ℚ
deriving DecidableEq, Repr

/-- The static TOKEN_COSTS table from config/index.ts, keyed by model name. -/
def TOKEN_COSTS (model : String) : Option TokenCost :=
  if model = "gpt-4-turbo-preview" then some ⟨0.01, 0.03⟩
  else if model = "gpt-4-turbo" then some ⟨0.01, 0.03⟩
  else if model = "gpt-4" then some ⟨0.03, 0.06⟩
  else if model = "gpt-4o" then some ⟨0.005, 0.015⟩
  else if model = "gpt-4o-mini" then some ⟨0.00015, 0.0006⟩
  else if model = "gpt-3.5-turbo" then some ⟨0.0005, 0.0015⟩
  else if model = "claude-3-5-sonnet-20241022" then some ⟨0.003, 0.015⟩
  else if model = "claude-3-opus-20240229" then some ⟨0.015, 0.075⟩
  else if model = "claude-3-sonnet-20240229" then some ⟨0.003, 0.015⟩
  else if model = "claude-3-haiku-20240307" then some ⟨0.00025, 0.00125⟩
  else none

/-- Fallback rate used by usageRepo.record for models absent from TOKEN_COSTS. -/
def fallbackCost : TokenCost := ⟨0.001, 0.002⟩

/-! ## Usage repository data model (usage records repository) -/

/-- Status column of a usage record. -/
inductive RecStatus
  | success
  | error
deriving DecidableEq, Repr

/-- A row of the usage_records table. -/
structure UsageRecord where
  id : String
  userId : String
  requestId : String
  provider : String
  model : String
  inputTokens : ℕ
  outputTokens : ℕ
  costEstimateUsd : ℚ
  latencyMs : ℕ
  status : RecStatus
  errorMessage : Option String
deriving DecidableEq, Repr

/-- A row of the daily_usage table, keyed by (userId, date). The source
stores the date as an ISO YYYY-MM-DD string and compares dates with the
lexicographic string order of SQL; that order embeds order-isomorphically
into the naturals (for example as the number yyyymmdd), so dates are
modelled as naturals here. -/
structure DailyRow where
  userId : String
  date : ℕ
  requestCount : ℕ
  totalTokens : ℕ
  totalCostUsd : ℚ
deriving DecidableEq, Repr

/-- Argument record of usageRepo.record. -/
structure CreateUsageInput where
  userId : String
  requestId : String
  provider : String
  model : String
  inputTokens : ℕ
  outputTokens : ℕ
  latencyMs : ℕ
  status : RecStatus
  errorMessage : Option String
deriving DecidableEq, Repr

/-- The persistent store as seen by the usage repository. -/
structure Db where
  usageRecords : List UsageRecord
  dailyUsage : List DailyRow
deriving DecidableEq, Repr

/-- JavaScript coercion input.errorMessage or-else null: the empty string is
falsy, so an empty message is stored as null. -/
def jsOrNull : Option String → Option String
  | some "" => none
  | x => x

/-- Cost computation of usageRepo.record: table lookup with fallback, then
(inputTokens / 1000) times input rate plus (outputTokens / 1000) times
output rate. -/
def costEstimate (model : String) (inTok outTok : ℕ) : ℚ :=
  let costs := (TOKEN_COSTS model).getD fallbackCost
  ((inTok : ℚ) / 1000) * costs.inputRate + ((outTok : ℚ) / 1000) * costs.outputRate

/-- The ON CONFLICT upsert of the daily_usage table performed by
usageRepo.record: insert a fresh row with request_count 1, or add to the
existing row for (userId, date). -/
def upsertDaily (rows : List DailyRow) (userId : String) (date : ℕ) (tokens : ℕ) (cost : ℚ) :
    List DailyRow :=
  if rows.any (fun r => r.userId = userId ∧ r.date = date) then
    rows.map (fun r =>
      if r.userId = userId ∧ r.date = date then
        { r with
          requestCount := r.requestCount + 1
          totalTokens := r.totalTokens + tokens
          totalCostUsd := r.totalCostUsd + cost }
      else r)
  else
    rows ++ [⟨userId, date, 1, tokens, cost⟩]

/-- Failure of one db.execute statement. -/
inductive DbError
  | executeFailed
deriving DecidableEq, Repr

/-- Embedding of usageRepo.record. The source issues two independent
db.execute statements with no surrounding transaction: first the INSERT into
usage_records, then the daily_usage upsert. The flags insertOk and upsertOk
say whether each statement succeeds; a failed statement throws, so a failure
of the first statement leaves the store untouched and skips the second,
while a failure of the second statement leaves the already-committed INSERT
in place. Returns the resulting store and the thrown-or-returned value. -/
def usageRepo_record (inp : CreateUsageInput) (recId : String) (today : ℕ) (db : Db)
    (insertOk upsertOk : Bool) : Db × Except DbError UsageRecord :=
  let cost := costEstimate inp.model inp.inputTokens inp.outputTokens
  let urec : UsageRecord :=
    { id := recId
      userId := inp.userId
      requestId := inp.requestId
      provider := inp.provider
      model := inp.model
      inputTokens := inp.inputTokens
      outputTokens := inp.outputTokens
      costEstimateUsd := cost
      latencyMs := inp.latencyMs
      status := inp.status
      errorMessage := jsOrNull inp.errorMessage }
  if insertOk then
    let db1 : Db := { db with usageRecords := db.usageRecords ++ [urec] }
    if upsertOk then
      let db2 : Db :=
        { db1 with
          dailyUsage :=
            upsertDaily db1.dailyUsage inp.userId today
              (inp.inputTokens + inp.outputTokens) cost }
      (db2, Except.ok urec)
    else
      (db1, Except.error DbError.executeFailed)
  else
    (db, Except.error DbError.executeFailed)

/-! ## Quota middleware (middleware/quota.ts) -/

/-- A row of the user_quotas table. The monthly spend cap column is nullable
in the schema (DEFAULT 50.00, no NOT NULL constraint), hence an Option. -/
structure UserQuota where
  dailyRequests : ℕ
  dailyTokens : ℕ
  monthlySpendCapUsd : Option ℚ
  maxConcurrentRequests : ℕ
deriving DecidableEq, Repr

/-- JavaScript truthiness of the nullable numeric column, as tested by the
statement if quota.monthly_spend_cap_usd: null is falsy and so is 0. -/
def capTruthy : Option ℚ → Bool
  | none => false
  | some c => decide (c ≠ 0)

/-- An error reply sent by the quota middleware via reply.code(s).send. -/
structure QuotaReply where
  status : ℕ
  errorKind : String
  message : String
deriving DecidableEq, Repr

/-- Environment read by one checkQuota call: the quota row (if any), today
row of daily_usage for the user (if any), all daily_usage rows of the user
(scanned by getUsageStats), and the in-memory concurrency counter value for
the user. The counter is an integer, as in the source, so that the floor-
at-zero behavior of releaseQuota is a provable property rather than a
consequence of the embedding type. -/
structure AdmissionEnv where
  quota : Option UserQuota
  todayUsage : Option DailyRow
  monthRows : List DailyRow
  current : ℤ
deriving DecidableEq, Repr

/-- The this-month cost of getUsageStats: sum total_cost_usd over the rows
of the user whose date is at least the first of the current month. -/
def thisMonthCost (rows : List DailyRow) (monthStart : ℕ) : ℚ :=
  (rows.filter (fun r => monthStart ≤ r.date)).foldl (fun acc r => acc + r.totalCostUsd) 0

/-- Value of dailyUsage.request_count or-else 0 in checkQuota. -/
def todayReqCount (td : Option DailyRow) : ℕ := (td.map (fun r => r.requestCount)).getD 0

/-- Value of dailyUsage.total_tokens or-else 0 in checkQuota. -/
def todayTokCount (td : Option DailyRow) : ℕ := (td.map (fun r => r.totalTokens)).getD 0

/-- Final two steps of checkQuota: the concurrency test and the increment. -/
def concurrencyStep (q : UserQuota) (current : ℤ) : Option QuotaReply × ℤ :=
  if (q.maxConcurrentRequests : ℤ) ≤ current then
    (some ⟨429, "too_many_concurrent", "Too many concurrent requests"⟩, current)
  else
    (none, current + 1)

/-- Monthly spend cap step of checkQuota: guarded by JavaScript truthiness of
the cap, then compares the this-month cost of getUsageStats against the
cap. -/
def monthlyStep (q : UserQuota) (monthCost : ℚ) (current : ℤ) : Option QuotaReply × ℤ :=
  match q.monthlySpendCapUsd with
  | some c =>
      if c ≠ 0 ∧ c ≤ monthCost then
        (some ⟨429, "quota_exceeded", "Monthly spending cap exceeded"⟩, current)
      else
        concurrencyStep q current
  | none => concurrencyStep q current

/-- Embedding of checkQuota from middleware/quota.ts. Returns the error
reply sent (none when admitted) together with the new value of the
concurrency counter for the user; the counter changes only on admission.
The checks run in source order: quota row lookup, daily request count,
daily token count, monthly spend cap (only when the cap is truthy),
concurrency. -/
def checkQuota (env : AdmissionEnv) (monthStart : ℕ) : Option QuotaReply × ℤ :=
  match env.quota with
  | none => (some ⟨500, "quota_not_found", ""⟩, env.current)
  | some q =>
      if q.dailyRequests ≤ todayReqCount env.todayUsage then
        (some ⟨429, "quota_exceeded", "Daily request limit exceeded"⟩, env.current)
      else if q.dailyTokens ≤ todayTokCount env.todayUsage then
        (some ⟨429, "quota_exceeded", "Daily token limit exceeded"⟩, env.current)
      else
        monthlyStep q (thisMonthCost env.monthRows monthStart) env.current

/-- Embedding of releaseQuota: decrement guarded by current greater than 0,
so the counter never goes below 0. -/
def releaseQuota (current : ℤ) : ℤ :=
  if 0 < current then current - 1 else current

/-! ## LLM service (services/llm.ts) -/

/-- Message role of the unified request. -/
inductive Role
  | system
  | user
  | assistant
deriving DecidableEq, Repr

/-- One chat message. -/
structure Message where
  role : Role
  content : String
deriving DecidableEq, Repr

/-- Provider tag accepted by the completion request schema. -/
inductive ProviderTag
  | openai
  | anthropic
  | auto
deriving DecidableEq, Repr

/-- Resolved upstream provider. -/
inductive Provider
  | openai
  | anthropic
deriving DecidableEq, Repr

/-- Response format accepted by the completion request schema. -/
inductive RespFormat
  | text
  | json
deriving DecidableEq, Repr

/-- Which upstream credentials are configured. -/
structure ProviderCfg where
  openaiApiKey : Bool
  anthropicApiKey : Bool
deriving DecidableEq, Repr

/-- String name of a provider as stored in usage records. -/
def providerName : Provider → String
  | Provider.openai => "openai"
  | Provider.anthropic => "anthropic"

/-- The static ALLOWED_MODELS table from config/index.ts. -/
def ALLOWED_MODELS : Provider → List String
  | Provider.openai =>
      ["gpt-4-turbo-preview", "gpt-4-turbo", "gpt-4", "gpt-4o", "gpt-4o-mini",
       "gpt-3.5-turbo"]
  | Provider.anthropic =>
      ["claude-3-5-sonnet-20241022", "claude-3-opus-20240229",
       "claude-3-sonnet-20240229", "claude-3-haiku-20240307"]

/-- Default model chosen by selectProviderAndModel when none is supplied. -/
def defaultModel : Provider → String
  | Provider.openai => "gpt-4o-mini"
  | Provider.anthropic => "claude-3-haiku-20240307"

/-- JavaScript truthiness of the optional model string: an absent model and
the empty string are both falsy, everything else is truthy. -/
def modelTruthy : Option String → Bool
  | none => false
  | some s => decide (s ≠ "")

/-- Embedding of selectProviderAndModel from services/llm.ts. A thrown
Error is an Except.error carrying the message. Auto selection prefers
openai, then anthropic, then throws. The allowlist check is guarded by the
truthiness test if model and the default is substituted under if not model,
so a supplied model is checked against the allowlist of the resolved
provider only when it is truthy: an omitted model AND a supplied empty
string both fall back to the default model of the provider. -/
def selectProviderAndModel (cfg : ProviderCfg) (ptag : Option ProviderTag)
    (model : Option String) : Except String (Provider × String) :=
  let resolved : Except String Provider :=
    match ptag with
    | none =>
        if cfg.openaiApiKey then Except.ok Provider.openai
        else if cfg.anthropicApiKey then Except.ok Provider.anthropic
        else Except.error "No LLM provider configured"
    | some ProviderTag.auto =>
        if cfg.openaiApiKey then Except.ok Provider.openai
        else if cfg.anthropicApiKey then Except.ok Provider.anthropic
        else Except.error "No LLM provider configured"
    | some ProviderTag.openai => Except.ok Provider.openai
    | some ProviderTag.anthropic => Except.ok Provider.anthropic
  match resolved with
  | Except.error e => Except.error e
  | Except.ok p =>
      if modelTruthy model = true ∧ model.getD "" ∉ ALLOWED_MODELS p then
        Except.error ("Model not allowed: " ++ model.getD "")
      else if modelTruthy model = false then
        Except.ok (p, defaultModel p)
      else
        Except.ok (p, model.getD "")

/-- Payload assembled by callAnthropic before calling the upstream client:
the first system message becomes the separate system field, every message
whose role is system is filtered out of the forwarded list. -/
structure AnthropicPayload where
  model : String
  maxTokens : ℕ
  system : Option String
  messages : List Message
deriving DecidableEq, Repr

/-- Embedding of the request assembly inside callAnthropic. -/
def callAnthropicPayload (model : String) (msgs : List Message)
    (maxTokens : Option ℕ) : AnthropicPayload :=
  { model := model
    maxTokens := maxTokens.getD 2048
    system := (msgs.find? (fun m => m.role == Role.system)).map (fun m => m.content)
    messages := msgs.filter (fun m => m.role != Role.system) }

/-- Normalized upstream response used by the pipeline. -/
structure UpstreamResp where
  content : String
  inputTokens : ℕ
  outputTokens : ℕ
  finishReason : String
deriving DecidableEq, Repr

/-! ## LLM routes (the llm routes source file) -/

/-- Parsed completion request body, shaped by CompletionRequestSchema. -/
structure CompletionBody where
  provider : Option ProviderTag
  model : Option String
  messages : List Message
  temperature : Option ℚ
  maxTokens : Option ℕ
  responseFormat : Option RespFormat
deriving DecidableEq, Repr

/-- Bound checks of CompletionRequestSchema: messages nonempty and at most
100, each content at most 100000 characters, temperature within 0 and 2,
max_tokens within 1 and 16000. -/
def validBody (b : CompletionBody) : Bool :=
  decide (1 ≤ b.messages.length) && decide (b.messages.length ≤ 100) &&
  b.messages.all (fun m => decide (m.content.length ≤ 100000)) &&
  (match b.temperature with
   | none => true
   | some t => decide ((0 : ℚ) ≤ t) && decide (t ≤ 2)) &&
  (match b.maxTokens with
   | none => true
   | some n => decide (1 ≤ n) && decide (n ≤ 16000))

/-- Environment of one POST /complete handler run: provider credentials, the
behavior of the upstream call for each provider and model (ok = normalized
response, error = thrown message), the measured latency, the generated ids
and today for the usage insert. -/
structure CompleteEnv where
  cfg : ProviderCfg
  upstream : Provider → String → Except String UpstreamResp
  latencyMs : ℕ
  recId : String
  requestId : String
  today : ℕ

/-- Result of the handler body: HTTP status, error kind of the reply (none
on 200), resulting store, resulting counter value for the user. -/
structure HandlerResult where
  status : ℕ
  errorKind : Option String
  db : Db
  counter : ℤ
deriving DecidableEq, Repr

/-- Embedding of the POST /complete handler body from the llm routes file,
running after the preHandler hooks. It validates the body (releasing the
counter and answering 400 validation_error on failure), calls the LLM
service, records usage and releases on both outcomes; every thrown error
lands in the catch branch, which records provider unknown and model unknown
with zero tokens and answers 500 llm_error. Db statements of the record are
taken as succeeding. -/
def completeHandler (env : CompleteEnv) (userId : String) (body : CompletionBody)
    (db : Db) (counter : ℤ) : HandlerResult :=
  if validBody body = false then
    { status := 400
      errorKind := some "validation_error"
      db := db
      counter := releaseQuota counter }
  else
    match selectProviderAndModel env.cfg body.provider body.model with
    | Except.error e =>
        let r := usageRepo_record
          ⟨userId, env.requestId, "unknown", "unknown", 0, 0, env.latencyMs,
           RecStatus.error, some e⟩ env.recId env.today db true true
        { status := 500
          errorKind := some "llm_error"
          db := r.1
          counter := releaseQuota counter }
    | Except.ok (p, m) =>
        match env.upstream p m with
        | Except.error e =>
            let r := usageRepo_record
              ⟨userId, env.requestId, "unknown", "unknown", 0, 0, env.latencyMs,
               RecStatus.error, some e⟩ env.recId env.today db true true
            { status := 500
              errorKind := some "llm_error"
              db := r.1
              counter := releaseQuota counter }
        | Except.ok resp =>
            let r := usageRepo_record
              ⟨userId, env.requestId, providerName p, m, resp.inputTokens,
               resp.outputTokens, env.latencyMs, RecStatus.success, none⟩
              env.recId env.today db true true
            { status := 200
              errorKind := none
              db := r.1
              counter := releaseQuota counter }

/-- The three routes registered by llmRoutes, all of which get the
authenticateApiKey and checkQuota preHandler hooks. -/
inductive Route
  | complete
  | models
  | quota
deriving DecidableEq, Repr

/-- Observable outcome of serving one authenticated request on a /v1/llm
route: whether checkQuota admitted it, the counter right after the
preHandler hooks ran, the HTTP status and error kind of the reply, the
resulting store and the final counter value once the reply was sent. -/
structure RouteOutcome where
  admitted : Bool
  counterAfterAdmission : ℤ
  status : ℕ
  errorKind : Option String
  db : Db
  finalCounter : ℤ
deriving DecidableEq, Repr

/-- Embedding of one authenticated request through llmRoutes: the checkQuota
preHandler runs first (a refusal reply short-circuits the handler), then the
route handler. The GET /models and GET /quota handlers answer 200 and never
touch releaseQuota; only the POST /complete handler releases. -/
def serveLlmRoute (route : Route) (env : CompleteEnv) (adm : AdmissionEnv)
    (monthStart : ℕ) (userId : String) (body : CompletionBody) (db : Db) :
    RouteOutcome :=
  match checkQuota adm monthStart with
  | (some reply, c) =>
      { admitted := false
        counterAfterAdmission := c
        status := reply.status
        errorKind := some reply.errorKind
        db := db
        finalCounter := c }
  | (none, c) =>
      match route with
      | Route.complete =>
          let h := completeHandler env userId body db c
          { admitted := true
            counterAfterAdmission := c
            status := h.status
            errorKind := h.errorKind
            db := h.db
            finalCounter := h.counter }
      | Route.models =>
          { admitted := true
            counterAfterAdmission := c
            status := 200
            errorKind := none
            db := db
            finalCounter := c }
      | Route.quota =>
          { admitted := true
            counterAfterAdmission := c
            status := 200
            errorKind := none
            db := db
            finalCounter := c }

/-! ## API key repository (db/repositories/api-keys.ts) and auth middleware -/

/-- Status column of an api_keys row. -/
inductive KeyStatus
  | active
  | revoked
deriving DecidableEq, Repr

/-- A row of the api_keys table. The stored lookup index column key_pfx
holds the first 12 characters of the plaintext. -/
structure ApiKeyRow where
  id : String
  userId : String
  keyHash : String
  keyPfx : String
  status : KeyStatus
deriving DecidableEq, Repr

/-- Status column of a users row. -/
inductive UserStatus
  | active
  | suspended
  | deleted
deriving DecidableEq, Repr

/-- A row of the users table, restricted to the columns the middleware
reads. -/
structure UserRow where
  id : String
  status : UserStatus
deriving DecidableEq, Repr

/-- First n characters of a string, written through the underlying character
list so that concrete instances reduce in the kernel. -/
def strTake (s : String) (n : ℕ) : String := String.mk (s.data.take n)

/-- Check that the characters of s start with the characters of p, written
through the underlying character lists so that concrete instances reduce in
the kernel. -/
def charsStartWith : List Char → List Char → Bool
  | _, [] => true
  | [], _ :: _ => false
  | a :: as, b :: bs => a = b && charsStartWith as bs

/-- Embedding of String.startsWith used by the auth middleware. -/
def strStartsWith (s p : String) : Bool := charsStartWith s.data p.data

/-- The candidate rows fetched by the SQL query of apiKeysRepo.verify:
rows whose stored key_pfx equals the first 12 characters of the presented
token AND whose status is active. These are the only rows a hash
comparison is ever run against. -/
def verifyCandidates (keys : List ApiKeyRow) (apiKey : String) : List ApiKeyRow :=
  keys.filter (fun k => k.keyPfx = strTake apiKey 12 ∧ k.status = KeyStatus.active)

/-- Embedding of apiKeysRepo.verify: fetch candidates by stored first-12
index among active rows, then return user and key ids of the first
candidate whose hash verifies the full plaintext; none otherwise. The
argon2 verification is the parameter vh applied to the stored hash and the
presented plaintext. -/
def apiKeysRepo_verify (vh : String → String → Bool) (keys : List ApiKeyRow)
    (apiKey : String) : Option (String × String) :=
  ((verifyCandidates keys apiKey).find? (fun k => vh k.keyHash apiKey)).map
    (fun k => (k.userId, k.id))

/-- Reply sent by the auth middleware on failure. -/
structure AuthReply where
  status : ℕ
  errorKind : String
deriving DecidableEq, Repr

/-- Embedding of authenticateApiKey from the authentication middleware:
missing token or a token without the fixed dom_ leading characters answers
401 unauthorized with no lookup; an unverifiable key answers the same
single generic 401 unauthorized; a verified key whose user is missing or
not active answers 403 forbidden; otherwise the user and key ids are bound
to the request. -/
def authenticateApiKey (vh : String → String → Bool) (keys : List ApiKeyRow)
    (users : List UserRow) (token : Option String) :
    Except AuthReply (String × String) :=
  match token with
  | none => Except.error ⟨401, "unauthorized"⟩
  | some t =>
      if strStartsWith t "dom_" = false then
        Except.error ⟨401, "unauthorized"⟩
      else
        match apiKeysRepo_verify vh keys t with
        | none => Except.error ⟨401, "unauthorized"⟩
        | some (uid, kid) =>
            match users.find? (fun u => u.id = uid) with
            | none => Except.error ⟨403, "forbidden"⟩
            | some u =>
                if u.status = UserStatus.active then Except.ok (uid, kid)
                else Except.error ⟨403, "forbidden"⟩

/-! ## Concrete fixtures used by several witnesses and counterexamples -/

/-- A generous quota row: 1000 requests, 100000 tokens, 50 USD cap, 5
concurrent. -/
def freeQuota : UserQuota := ⟨1000, 100000, some 50, 5⟩

/-- An admission environment that admits: generous quota, no usage yet,
counter at 0. -/
def admFree : AdmissionEnv := ⟨some freeQuota, none, [], 0⟩

/-- An upstream that always answers successfully. -/
def okUpstream : Provider → String → Except String UpstreamResp :=
  fun _ _ => Except.ok ⟨"ok", 3, 4, "stop"⟩

/-- An upstream that always fails after retries with an HTTP 500. -/
def errUpstream : Provider → String → Except String UpstreamResp :=
  fun _ _ => Except.error "Upstream HTTP 500"

/-- A handler environment with only the OpenAI upstream configured and a
failing upstream call. -/
def envOpenaiErr : CompleteEnv := ⟨⟨true, false⟩, errUpstream, 42, "rec1", "req1", 20261011⟩

/-- A handler environment with only the OpenAI upstream configured and a
successful upstream call. -/
def envOpenaiOk : CompleteEnv := ⟨⟨true, false⟩, okUpstream, 42, "rec1", "req1", 20261011⟩

/-- A handler environment with neither upstream configured. -/
def envNoProvider : CompleteEnv := ⟨⟨false, false⟩, errUpstream, 42, "rec1", "req1", 20261011⟩

/-- A handler environment with only the Anthropic upstream configured and a
successful upstream call. -/
def envAnthropicOk : CompleteEnv := ⟨⟨false, true⟩, okUpstream, 42, "rec1", "req1", 20261011⟩

/-- A schema-valid one-message body with everything else omitted. -/
def plainBody : CompletionBody := ⟨none, none, [⟨Role.user, "hi"⟩], none, none, none⟩

/-- A body with an empty message list, which fails schema validation. -/
def emptyBody : CompletionBody := ⟨none, none, [], none, none, none⟩

/-! ## Helper lemmas -/

/-- Admission helper: when checkQuota admits, the returned counter is the
old counter plus one. -/
theorem checkQuota_admitted (env : AdmissionEnv) (ms : ℕ) (c : ℤ)
    (h : checkQuota env ms = (none, c)) : c = env.current + 1 := by
  unfold checkQuota monthlyStep concurrencyStep at h
  rcases henv : env.quota with _ | q <;> rw [henv] at h
  · simp at h
  · repeat' split at h
    all_goals simp_all

/-! ## Claim C1 -/

/-- Claim C1 (code bug): usageRepo.record issues the usage-record INSERT and
the daily aggregate upsert as two independent db.execute statements with no
surrounding transaction. At the run below the INSERT succeeds and the
upsert fails: the call throws, yet the usage record is persisted while the
daily aggregate table is untouched, so a usage record exists that is not
counted in any daily aggregate, refuting atomicity. -/
theorem C1_record_not_atomic :
    (usageRepo_record ⟨"u1", "req1", "openai", "gpt-4o", 100, 50, 12, RecStatus.success, none⟩
        "rec1" 20261011 ⟨[], []⟩ true false).2 = Except.error DbError.executeFailed ∧
    (usageRepo_record ⟨"u1", "req1", "openai", "gpt-4o", 100, 50, 12, RecStatus.success, none⟩
        "rec1" 20261011 ⟨[], []⟩ true false).1.usageRecords.length = 1 ∧
    (usageRepo_record ⟨"u1", "req1", "openai", "gpt-4o", 100, 50, 12, RecStatus.success, none⟩
        "rec1" 20261011 ⟨[], []⟩ true false).1.dailyUsage = [] :=
  ⟨rfl, rfl, rfl⟩

/-! ## Claim C10 -/

/-- Claim C10 (confirmed): every usage record written by usageRepo.record
carries cost_estimate_usd equal to (input_tokens/1000) times the input rate
plus (output_tokens/1000) times the output rate, with the rates taken from
the static TOKEN_COSTS table keyed by the model, and the fallback rates
0.001 and 0.002 USD per 1K tokens for a model absent from the table. -/
theorem C10_cost_formula (inp : CreateUsageInput) (recId : String) (today : ℕ) (db : Db)
    (iOk uOk : Bool) (urec : UsageRecord)
    (h : (usageRepo_record inp recId today db iOk uOk).2 = Except.ok urec) :
    (∀ c, TOKEN_COSTS inp.model = some c →
        urec.costEstimateUsd =
          ((inp.inputTokens : ℚ) / 1000) * c.inputRate +
            ((inp.outputTokens : ℚ) / 1000) * c.outputRate) ∧
    (TOKEN_COSTS inp.model = none →
        urec.costEstimateUsd =
          ((inp.inputTokens : ℚ) / 1000) * 0.001 +
            ((inp.outputTokens : ℚ) / 1000) * 0.002) := by
  have hc : urec.costEstimateUsd = costEstimate inp.model inp.inputTokens inp.outputTokens := by
    unfold usageRepo_record at h
    cases iOk with
    | false => simp at h
    | true =>
        cases uOk with
        | false => simp at h
        | true =>
            simp only [if_true, Bool.true_eq_false] at h
            simp at h
            rw [← h]
  constructor
  · intro c hcc
    rw [hc]
    simp [costEstimate, hcc]
  · intro hcc
    rw [hc]
    simp [costEstimate, hcc, fallbackCost]

/-- Concrete input for the C10 witness: a model present in TOKEN_COSTS. -/
def c10inp : CreateUsageInput :=
  ⟨"u1", "req1", "openai", "gpt-4-turbo-preview", 1000, 2000, 5, RecStatus.success, none⟩

/-- Concrete record produced for the C10 witness. -/
def c10rec : UsageRecord :=
  ⟨"rec1", "u1", "req1", "openai", "gpt-4-turbo-preview", 1000, 2000,
   costEstimate "gpt-4-turbo-preview" 1000 2000, 5, RecStatus.success, none⟩

/-- Witness for C10: at a concrete record call on a model of the table, the
recorded cost is (1000/1000) times 0.01 plus (2000/1000) times 0.03, that
is 0.07 USD. -/
theorem C10_cost_formula_witness :
    (usageRepo_record c10inp "rec1" 20261011 ⟨[], []⟩ true true).2 = Except.ok c10rec ∧
    c10rec.costEstimateUsd = 0.07 := by
  constructor
  · rfl
  · have h := (C10_cost_formula c10inp "rec1" 20261011 ⟨[], []⟩ true true c10rec rfl).1
      ⟨0.01, 0.03⟩ (by simp [TOKEN_COSTS, c10inp])
    rw [h]
    norm_num [c10inp]

/-! ## Claim C2 -/

/-- Claim C2 (code bug evaluation): the checkQuota preHandler is installed
on every /v1/llm route, and the GET /models and GET /quota handlers never
call releaseQuota. An authenticated GET /models request admitted at
counter 0 finishes with status 200 and the counter left at 1, and the same
happens on GET /quota: the increment performed at admission is never
matched by a decrement on these routes, so the counter leaks. -/
theorem C2_models_route_leaks_counter :
    (serveLlmRoute Route.models envOpenaiErr admFree 20261001 "u1" plainBody
        ⟨[], []⟩).admitted = true ∧
    (serveLlmRoute Route.models envOpenaiErr admFree 20261001 "u1" plainBody
        ⟨[], []⟩).status = 200 ∧
    (serveLlmRoute Route.models envOpenaiErr admFree 20261001 "u1" plainBody
        ⟨[], []⟩).counterAfterAdmission = 1 ∧
    (serveLlmRoute Route.models envOpenaiErr admFree 20261001 "u1" plainBody
        ⟨[], []⟩).finalCounter = 1 ∧
    (serveLlmRoute Route.quota envOpenaiErr admFree 20261001 "u1" plainBody
        ⟨[], []⟩).finalCounter = 1 := by
  decide

/-! ## Claim C3 -/

/-- Claim C3 (counterexample): a completion request with a schema-invalid
body (empty message list) is admitted by the checkQuota preHandler BEFORE
validation runs: the concurrency counter is incremented to 1, contradicting
the claim that no increment occurs for such a request. The handler then
answers 400 validation_error and releases, bringing the counter back to 0,
with no usage record written. -/
theorem C3_admission_precedes_validation_cex :
    validBody emptyBody = false ∧
    (serveLlmRoute Route.complete envOpenaiErr admFree 20261001 "u1" emptyBody
        ⟨[], []⟩).admitted = true ∧
    (serveLlmRoute Route.complete envOpenaiErr admFree 20261001 "u1" emptyBody
        ⟨[], []⟩).counterAfterAdmission = 1 ∧
    ¬ (serveLlmRoute Route.complete envOpenaiErr admFree 20261001 "u1" emptyBody
        ⟨[], []⟩).counterAfterAdmission = 0 ∧
    (serveLlmRoute Route.complete envOpenaiErr admFree 20261001 "u1" emptyBody
        ⟨[], []⟩).status = 400 ∧
    (serveLlmRoute Route.complete envOpenaiErr admFree 20261001 "u1" emptyBody
        ⟨[], []⟩).errorKind = some "validation_error" ∧
    (serveLlmRoute Route.complete envOpenaiErr admFree 20261001 "u1" emptyBody
        ⟨[], []⟩).finalCounter = 0 ∧
    (serveLlmRoute Route.complete envOpenaiErr admFree 20261001 "u1" emptyBody
        ⟨[], []⟩).db = ⟨[], []⟩ := by
  decide

/-- Claim C3 (amended): on the completion route a schema-invalid body is
refused with 400 validation_error and no usage record is written, but quota
admission has already taken place in the preHandler (the counter was
incremented); the handler releases the just-admitted counter, so the final
counter equals the initial one whenever the initial counter is
nonnegative. -/
theorem C3_validation_error_released (env : CompleteEnv) (adm : AdmissionEnv)
    (ms : ℕ) (uid : String) (body : CompletionBody) (db : Db)
    (hv : validBody body = false) (c : ℤ) (hadm : checkQuota adm ms = (none, c))
    (hcur : 0 ≤ adm.current) :
    (serveLlmRoute Route.complete env adm ms uid body db).status = 400 ∧
    (serveLlmRoute Route.complete env adm ms uid body db).errorKind =
      some "validation_error" ∧
    (serveLlmRoute Route.complete env adm ms uid body db).db = db ∧
    (serveLlmRoute Route.complete env adm ms uid body db).counterAfterAdmission =
      adm.current + 1 ∧
    (serveLlmRoute Route.complete env adm ms uid body db).finalCounter = adm.current := by
  have hc1 : c = adm.current + 1 := checkQuota_admitted adm ms c hadm
  subst hc1
  simp [serveLlmRoute, hadm, completeHandler, hv, releaseQuota]
  omega

/-- Witness for the amended C3: the concrete invalid-body run from the
counterexample instantiates the amended statement. -/
theorem C3_validation_error_released_witness :
    (serveLlmRoute Route.complete envOpenaiOk admFree 20261001 "u1" emptyBody
        ⟨[], []⟩).status = 400 ∧
    (serveLlmRoute Route.complete envOpenaiOk admFree 20261001 "u1" emptyBody
        ⟨[], []⟩).errorKind = some "validation_error" ∧
    (serveLlmRoute Route.complete envOpenaiOk admFree 20261001 "u1" emptyBody
        ⟨[], []⟩).db = ⟨[], []⟩ ∧
    (serveLlmRoute Route.complete envOpenaiOk admFree 20261001 "u1" emptyBody
        ⟨[], []⟩).counterAfterAdmission = admFree.current + 1 ∧
    (serveLlmRoute Route.complete envOpenaiOk admFree 20261001 "u1" emptyBody
        ⟨[], []⟩).finalCounter = admFree.current :=
  C3_validation_error_released envOpenaiOk admFree 20261001 "u1" emptyBody ⟨[], []⟩
    (by decide) 1 (by decide) (by decide)

/-! ## Claim C4 -/

/-- Helper: the JavaScript or-else-null coercion keeps a nonempty message. -/
theorem jsOrNull_some (e : String) (he : e ≠ "") : jsOrNull (some e) = some e := by
  unfold jsOrNull
  split
  · rename_i heq
    simp at heq
    exact absurd heq he
  · rfl

/-- A schema-valid body naming provider auto and the allowed model
gpt-4o. -/
def bodyGpt4o : CompletionBody :=
  ⟨some ProviderTag.auto, some "gpt-4o", [⟨Role.user, "hi"⟩], none, none, none⟩

/-- Claim C4 (counterexample): at a run where selection succeeded with
(openai, gpt-4o) and the upstream call failed, the catch branch of the
completion handler answers HTTP 500 (not the claimed 502) and records the
usage row with provider unknown and model unknown rather than the selected
provider and model. -/
theorem C4_provider_recorded_unknown_cex :
    selectProviderAndModel envOpenaiErr.cfg bodyGpt4o.provider bodyGpt4o.model =
      Except.ok (Provider.openai, "gpt-4o") ∧
    (completeHandler envOpenaiErr "u1" bodyGpt4o ⟨[], []⟩ 1).status = 500 ∧
    ¬ (completeHandler envOpenaiErr "u1" bodyGpt4o ⟨[], []⟩ 1).status = 502 ∧
    (completeHandler envOpenaiErr "u1" bodyGpt4o ⟨[], []⟩ 1).errorKind =
      some "llm_error" ∧
    ((completeHandler envOpenaiErr "u1" bodyGpt4o ⟨[], []⟩ 1).db.usageRecords.map
        fun r => r.provider) = ["unknown"] ∧
    ((completeHandler envOpenaiErr "u1" bodyGpt4o ⟨[], []⟩ 1).db.usageRecords.map
        fun r => r.model) = ["unknown"] := by
  refine ⟨rfl, ?_⟩
  decide

/-- Claim C4 (amended): for every admitted completion request with a valid
body where selection succeeded but the upstream call failed with message e,
the handler answers HTTP 500 with kind llm_error, releases the counter, and
writes exactly one usage record with status error, provider unknown and
model unknown (regardless of the selected provider), zero tokens, the
measured latency and the thrown message as error_message. -/
theorem C4_upstream_failure_recorded (env : CompleteEnv) (uid : String)
    (body : CompletionBody) (db : Db) (counter : ℤ) (p : Provider) (m e : String)
    (hv : validBody body = true)
    (hsel : selectProviderAndModel env.cfg body.provider body.model = Except.ok (p, m))
    (hup : env.upstream p m = Except.error e) (he : e ≠ "") :
    (completeHandler env uid body db counter).status = 500 ∧
    (completeHandler env uid body db counter).errorKind = some "llm_error" ∧
    (completeHandler env uid body db counter).counter = releaseQuota counter ∧
    ∃ urec : UsageRecord,
      (completeHandler env uid body db counter).db.usageRecords =
        db.usageRecords ++ [urec] ∧
      urec.status = RecStatus.error ∧
      urec.provider = "unknown" ∧
      urec.model = "unknown" ∧
      urec.inputTokens = 0 ∧
      urec.outputTokens = 0 ∧
      urec.latencyMs = env.latencyMs ∧
      urec.requestId = env.requestId ∧
      urec.userId = uid ∧
      urec.errorMessage = some e := by
  simp only [completeHandler, hv, hsel, hup, usageRepo_record, jsOrNull_some e he]
  simp [usageRepo_record, jsOrNull_some e he]

/-- Witness for the amended C4: the concrete failing-upstream run from the
counterexample instantiates the amended statement. -/
theorem C4_upstream_failure_recorded_witness :
    (completeHandler envOpenaiErr "u1" bodyGpt4o ⟨[], []⟩ 1).status = 500 ∧
    (completeHandler envOpenaiErr "u1" bodyGpt4o ⟨[], []⟩ 1).errorKind =
      some "llm_error" ∧
    (completeHandler envOpenaiErr "u1" bodyGpt4o ⟨[], []⟩ 1).counter = releaseQuota 1 := by
  have h := C4_upstream_failure_recorded envOpenaiErr "u1" bodyGpt4o ⟨[], []⟩ 1
    Provider.openai "gpt-4o" "Upstream HTTP 500" (by decide) (by rfl) (by rfl) (by decide)
  exact ⟨h.1, h.2.1, h.2.2.1⟩

/-! ## Claim C5 -/

/-- Helper: when the monthly cap is falsy or not reached, the monthly step
falls through to the concurrency step. -/
theorem monthlyStep_pass (q : UserQuota) (cost : ℚ) (cur : ℤ)
    (h : capTruthy q.monthlySpendCapUsd = false ∨ cost < q.monthlySpendCapUsd.getD 0) :
    monthlyStep q cost cur = concurrencyStep q cur := by
  unfold monthlyStep
  cases hcap : q.monthlySpendCapUsd with
  | none => rfl
  | some c =>
      rw [hcap] at h
      have hno : ¬(c ≠ 0 ∧ c ≤ cost) := by
        rcases h with h | h
        · simp [capTruthy] at h
          rintro ⟨hc, _⟩
          exact hc h
        · simp only [Option.getD] at h
          rintro ⟨_, hc⟩
          exact absurd hc (not_le.mpr h)
      simp [hno]

/-- Claim C5 (counterexample): when the quota row of the user is absent,
checkQuota answers HTTP 500 with error kind quota_not_found, not the
internal_error kind the claim states. -/
theorem C5_quota_not_found_cex :
    checkQuota ⟨none, none, [], 0⟩ 20261001 = (some ⟨500, "quota_not_found", ""⟩, 0) ∧
    ("quota_not_found" : String) ≠ "internal_error" := by
  refine ⟨rfl, by decide⟩

/-- Claim C5 (amended): checkQuota evaluates its checks in the order quota
row lookup, daily request count, daily token count, monthly spend (only
when the cap is non-null AND non-zero), concurrency; the first failing
check wins and its reply does not depend on the data of the later checks;
an absent quota row fails with HTTP 500 and error kind quota_not_found
(rather than internal_error). -/
theorem C5_check_order :
    (∀ td rows cur ms,
        checkQuota ⟨none, td, rows, cur⟩ ms = (some ⟨500, "quota_not_found", ""⟩, cur)) ∧
    (∀ (q : UserQuota) td rows cur ms,
        q.dailyRequests ≤ todayReqCount td →
        checkQuota ⟨some q, td, rows, cur⟩ ms =
          (some ⟨429, "quota_exceeded", "Daily request limit exceeded"⟩, cur)) ∧
    (∀ (q : UserQuota) td rows cur ms,
        todayReqCount td < q.dailyRequests →
        q.dailyTokens ≤ todayTokCount td →
        checkQuota ⟨some q, td, rows, cur⟩ ms =
          (some ⟨429, "quota_exceeded", "Daily token limit exceeded"⟩, cur)) ∧
    (∀ (q : UserQuota) td rows cur ms (c : ℚ),
        todayReqCount td < q.dailyRequests →
        todayTokCount td < q.dailyTokens →
        q.monthlySpendCapUsd = some c → c ≠ 0 →
        c ≤ thisMonthCost rows ms →
        checkQuota ⟨some q, td, rows, cur⟩ ms =
          (some ⟨429, "quota_exceeded", "Monthly spending cap exceeded"⟩, cur)) ∧
    (∀ (q : UserQuota) td rows cur ms,
        todayReqCount td < q.dailyRequests →
        todayTokCount td < q.dailyTokens →
        (capTruthy q.monthlySpendCapUsd = false ∨
          thisMonthCost rows ms < q.monthlySpendCapUsd.getD 0) →
        (q.maxConcurrentRequests : ℤ) ≤ cur →
        checkQuota ⟨some q, td, rows, cur⟩ ms =
          (some ⟨429, "too_many_concurrent", "Too many concurrent requests"⟩, cur)) ∧
    (∀ (q : UserQuota) td rows cur ms,
        todayReqCount td < q.dailyRequests →
        todayTokCount td < q.dailyTokens →
        (capTruthy q.monthlySpendCapUsd = false ∨
          thisMonthCost rows ms < q.monthlySpendCapUsd.getD 0) →
        cur < (q.maxConcurrentRequests : ℤ) →
        checkQuota ⟨some q, td, rows, cur⟩ ms = (none, cur + 1)) := by
  refine ⟨fun td rows cur ms => rfl, ?_, ?_, ?_, ?_, ?_⟩
  · intro q td rows cur ms h
    simp [checkQuota, h]
  · intro q td rows cur ms h1 h2
    have h1n : ¬ q.dailyRequests ≤ todayReqCount td := by omega
    simp [checkQuota, h1n, h2]
  · intro q td rows cur ms c h1 h2 hcap hc0 hcost
    have h1n : ¬ q.dailyRequests ≤ todayReqCount td := by omega
    have h2n : ¬ q.dailyTokens ≤ todayTokCount td := by omega
    simp [checkQuota, monthlyStep, h1n, h2n, hcap, hc0, hcost]
  · intro q td rows cur ms h1 h2 hm hconc
    have h1n : ¬ q.dailyRequests ≤ todayReqCount td := by omega
    have h2n : ¬ q.dailyTokens ≤ todayTokCount td := by omega
    have hms := monthlyStep_pass q (thisMonthCost rows ms) cur hm
    simp [checkQuota, h1n, h2n, hms, concurrencyStep, hconc]
  · intro q td rows cur ms h1 h2 hm hconc
    have h1n : ¬ q.dailyRequests ≤ todayReqCount td := by omega
    have h2n : ¬ q.dailyTokens ≤ todayTokCount td := by omega
    have hcn : ¬ (q.maxConcurrentRequests : ℤ) ≤ cur := by omega
    have hms := monthlyStep_pass q (thisMonthCost rows ms) cur hm
    simp [checkQuota, h1n, h2n, hms, concurrencyStep, hcn]

/-- Witness for the amended C5: a user with a zero daily request allowance
is refused on the first check at a concrete environment. -/
theorem C5_check_order_witness :
    checkQuota ⟨some ⟨0, 100000, some 50, 5⟩, none, [], 0⟩ 20261001 =
      (some ⟨429, "quota_exceeded", "Daily request limit exceeded"⟩, 0) :=
  C5_check_order.2.1 ⟨0, 100000, some 50, 5⟩ none [] 0 20261001 (by decide)

/-! ## Claim C6 -/

/-- Claim C6 (counterexample): a user whose monthly_spend_cap_usd is the
non-null value 0 with a month-to-date spend of 100 USD is admitted: the
JavaScript truthiness test skips the monthly check for a zero cap even
though the spend 100 is at least the cap 0, refuting the claim that a cap
of 0 refuses. -/
theorem C6_zero_cap_not_enforced_cex :
    checkQuota ⟨some ⟨1000, 100000, some 0, 5⟩, none,
        [⟨"u1", 20261005, 10, 1000, 100⟩], 0⟩ 20261001 = (none, 1) ∧
    thisMonthCost [⟨"u1", 20261005, 10, 1000, 100⟩] 20261001 = 100 ∧
    (0 : ℚ) ≤ 100 := by
  refine ⟨?_, ?_, by norm_num⟩
  · simp [checkQuota, monthlyStep, concurrencyStep, thisMonthCost, todayReqCount,
      todayTokCount]
  · simp [thisMonthCost]

/-- Claim C6 (amended): when the cap is non-null AND non-zero, admission
refuses with the monthly quota_exceeded reply exactly when the getUsageStats
month-to-date spend (the sum of the daily aggregates of the user dated on or
after the first of the current month) reaches the cap: it refuses monthly
when the daily checks pass and the spend reaches the cap, and it never
produces the monthly refusal while the spend is below the cap; when the cap
is null OR ZERO the outcome never depends on the aggregates summed for the
month and is never the monthly refusal, for arbitrarily large spend. -/
theorem C6_monthly_cap_semantics :
    (∀ (q : UserQuota) td rows cur ms (c : ℚ),
        q.monthlySpendCapUsd = some c → c ≠ 0 →
        todayReqCount td < q.dailyRequests →
        todayTokCount td < q.dailyTokens →
        c ≤ thisMonthCost rows ms →
        checkQuota ⟨some q, td, rows, cur⟩ ms =
          (some ⟨429, "quota_exceeded", "Monthly spending cap exceeded"⟩, cur)) ∧
    (∀ (q : UserQuota) td rows cur ms (c : ℚ),
        q.monthlySpendCapUsd = some c → c ≠ 0 →
        thisMonthCost rows ms < c →
        (checkQuota ⟨some q, td, rows, cur⟩ ms).1 ≠
          some ⟨429, "quota_exceeded", "Monthly spending cap exceeded"⟩) ∧
    (∀ (q : UserQuota) td rows rows2 cur ms,
        q.monthlySpendCapUsd = none ∨ q.monthlySpendCapUsd = some 0 →
        checkQuota ⟨some q, td, rows, cur⟩ ms = checkQuota ⟨some q, td, rows2, cur⟩ ms) ∧
    (∀ (q : UserQuota) td rows cur ms,
        q.monthlySpendCapUsd = none ∨ q.monthlySpendCapUsd = some 0 →
        (checkQuota ⟨some q, td, rows, cur⟩ ms).1 ≠
          some ⟨429, "quota_exceeded", "Monthly spending cap exceeded"⟩) := by
  refine ⟨?_, ?_, ?_, ?_⟩
  · intro q td rows cur ms c hcap hc0 h1 h2 hcost
    have h1n : ¬ q.dailyRequests ≤ todayReqCount td := by omega
    have h2n : ¬ q.dailyTokens ≤ todayTokCount td := by omega
    simp [checkQuota, monthlyStep, h1n, h2n, hcap, hc0, hcost]
  · intro q td rows cur ms c hcap hc0 hlt
    have hms : monthlyStep q (thisMonthCost rows ms) cur = concurrencyStep q cur :=
      monthlyStep_pass q (thisMonthCost rows ms) cur
        (Or.inr (by rw [hcap]; simpa using hlt))
    unfold checkQuota
    simp only [hms]
    unfold concurrencyStep
    repeat' split
    all_goals simp [QuotaReply.mk.injEq,
      show ("Daily request limit exceeded" : String) ≠ "Monthly spending cap exceeded" from
        by decide,
      show ("Daily token limit exceeded" : String) ≠ "Monthly spending cap exceeded" from
        by decide,
      show ("too_many_concurrent" : String) ≠ "quota_exceeded" from by decide]
  · intro q td rows rows2 cur ms hcap
    rcases hcap with h | h <;> simp [checkQuota, monthlyStep, h]
  · intro q td rows cur ms hcap
    have hms : monthlyStep q (thisMonthCost rows ms) cur = concurrencyStep q cur := by
      rcases hcap with h | h <;> simp [monthlyStep, h]
    unfold checkQuota
    simp only [hms]
    unfold concurrencyStep
    repeat' split
    all_goals simp [QuotaReply.mk.injEq,
      show ("Daily request limit exceeded" : String) ≠ "Monthly spending cap exceeded" from
        by decide,
      show ("Daily token limit exceeded" : String) ≠ "Monthly spending cap exceeded" from
        by decide,
      show ("too_many_concurrent" : String) ≠ "quota_exceeded" from by decide]

/-- Witness for the amended C6: a 50 USD cap with 100 USD month-to-date
spend refuses with the monthly reply at a concrete environment. -/
theorem C6_monthly_cap_semantics_witness :
    checkQuota ⟨some ⟨1000, 100000, some 50, 5⟩, none,
        [⟨"u1", 20261005, 10, 1000, 100⟩], 0⟩ 20261001 =
      (some ⟨429, "quota_exceeded", "Monthly spending cap exceeded"⟩, 0) :=
  C6_monthly_cap_semantics.1 ⟨1000, 100000, some 50, 5⟩ none
    [⟨"u1", 20261005, 10, 1000, 100⟩] 0 20261001 50 rfl (by norm_num) (by decide)
    (by decide) (by norm_num [thisMonthCost])

/-! ## Claim C7 -/

/-- Claim C7 (counterexample): with neither upstream configured, a valid
completion request fails with HTTP 500 and kind llm_error (the generic catch
branch), not with the claimed 503 no_provider_available. -/
theorem C7_no_provider_cex :
    selectProviderAndModel envNoProvider.cfg plainBody.provider plainBody.model =
      Except.error "No LLM provider configured" ∧
    (completeHandler envNoProvider "u1" plainBody ⟨[], []⟩ 1).status = 500 ∧
    ¬ (completeHandler envNoProvider "u1" plainBody ⟨[], []⟩ 1).status = 503 ∧
    (completeHandler envNoProvider "u1" plainBody ⟨[], []⟩ 1).errorKind =
      some "llm_error" ∧
    ¬ (completeHandler envNoProvider "u1" plainBody ⟨[], []⟩ 1).errorKind =
      some "no_provider_available" := by
  refine ⟨rfl, ?_⟩
  decide

/-- Claim C7 (amended): selection picks the first configured upstream in the
order openai then anthropic when the tag is omitted or auto, and enforces
the static allowlist only for a truthy supplied model: an omitted model AND
a supplied empty string both silently get the default lightweight model of
the selected provider; a nonempty model off the allowlist throws. Selection
failures are thrown Errors that the catch branch of the route maps to HTTP
500 with kind llm_error, so neither 503 no_provider_available nor 400
model_not_allowed is produced. -/
theorem C7_selection_behavior :
    (∀ (cfg : ProviderCfg) t mm, cfg.openaiApiKey = true →
        (t = none ∨ t = some ProviderTag.auto) →
        (mm = none ∨ mm = some "") →
        selectProviderAndModel cfg t mm = Except.ok (Provider.openai, "gpt-4o-mini")) ∧
    (∀ (cfg : ProviderCfg) t m, cfg.openaiApiKey = true →
        (t = none ∨ t = some ProviderTag.auto) →
        m ≠ "" → m ∈ ALLOWED_MODELS Provider.openai →
        selectProviderAndModel cfg t (some m) = Except.ok (Provider.openai, m)) ∧
    (∀ (cfg : ProviderCfg) t m, cfg.openaiApiKey = true →
        (t = none ∨ t = some ProviderTag.auto) →
        m ≠ "" → m ∉ ALLOWED_MODELS Provider.openai →
        selectProviderAndModel cfg t (some m) =
          Except.error ("Model not allowed: " ++ m)) ∧
    (∀ (cfg : ProviderCfg) t mm, cfg.openaiApiKey = false →
        cfg.anthropicApiKey = true →
        (t = none ∨ t = some ProviderTag.auto) →
        (mm = none ∨ mm = some "") →
        selectProviderAndModel cfg t mm =
          Except.ok (Provider.anthropic, "claude-3-haiku-20240307")) ∧
    (∀ (cfg : ProviderCfg) t m, cfg.openaiApiKey = false →
        cfg.anthropicApiKey = true →
        (t = none ∨ t = some ProviderTag.auto) →
        m ≠ "" → m ∈ ALLOWED_MODELS Provider.anthropic →
        selectProviderAndModel cfg t (some m) = Except.ok (Provider.anthropic, m)) ∧
    (∀ (cfg : ProviderCfg) t m, cfg.openaiApiKey = false →
        cfg.anthropicApiKey = true →
        (t = none ∨ t = some ProviderTag.auto) →
        m ≠ "" → m ∉ ALLOWED_MODELS Provider.anthropic →
        selectProviderAndModel cfg t (some m) =
          Except.error ("Model not allowed: " ++ m)) ∧
    (∀ (cfg : ProviderCfg) t mm, cfg.openaiApiKey = false →
        cfg.anthropicApiKey = false →
        (t = none ∨ t = some ProviderTag.auto) →
        selectProviderAndModel cfg t mm = Except.error "No LLM provider configured") ∧
    (∀ (env : CompleteEnv) uid body db counter e, validBody body = true →
        selectProviderAndModel env.cfg body.provider body.model = Except.error e →
        (completeHandler env uid body db counter).status = 500 ∧
        (completeHandler env uid body db counter).errorKind = some "llm_error") := by
  refine ⟨?_, ?_, ?_, ?_, ?_, ?_, ?_, ?_⟩
  · intro cfg t mm h1 ht hm
    rcases ht with rfl | rfl <;> rcases hm with rfl | rfl <;>
      simp [selectProviderAndModel, modelTruthy, defaultModel, h1]
  · intro cfg t m h1 ht hne hmem
    rcases ht with rfl | rfl <;>
      simp [selectProviderAndModel, modelTruthy, h1, hne, hmem]
  · intro cfg t m h1 ht hne hmem
    rcases ht with rfl | rfl <;>
      simp [selectProviderAndModel, modelTruthy, h1, hne, hmem]
  · intro cfg t mm h1 h2 ht hm
    rcases ht with rfl | rfl <;> rcases hm with rfl | rfl <;>
      simp [selectProviderAndModel, modelTruthy, defaultModel, h1, h2]
  · intro cfg t m h1 h2 ht hne hmem
    rcases ht with rfl | rfl <;>
      simp [selectProviderAndModel, modelTruthy, h1, h2, hne, hmem]
  · intro cfg t m h1 h2 ht hne hmem
    rcases ht with rfl | rfl <;>
      simp [selectProviderAndModel, modelTruthy, h1, h2, hne, hmem]
  · intro cfg t mm h1 h2 ht
    rcases ht with rfl | rfl <;> simp [selectProviderAndModel, h1, h2]
  · intro env uid body db counter e hv hsel
    simp [completeHandler, hv, hsel]

/-- Witness for the amended C7: a supplied empty-string model with openai
configured is treated as omitted by the truthiness test and silently gets
the default model gpt-4o-mini. -/
theorem C7_selection_behavior_witness :
    selectProviderAndModel ⟨true, false⟩ (some ProviderTag.auto) (some "") =
      Except.ok (Provider.openai, "gpt-4o-mini") :=
  C7_selection_behavior.1 ⟨true, false⟩ (some ProviderTag.auto) (some "") rfl
    (Or.inr rfl) (Or.inr rfl)

/-! ## Claim C8 -/

/-- Messages with two system entries used by the C8 counterexample. -/
def sysMsgs : List Message :=
  [⟨Role.system, "a"⟩, ⟨Role.system, "b"⟩, ⟨Role.user, "c"⟩]

/-- A schema-valid body carrying two system messages, aimed at the
Anthropic upstream. -/
def bodyTwoSystems : CompletionBody :=
  ⟨some ProviderTag.anthropic, none, sysMsgs, none, none, none⟩

/-- Claim C8 (counterexample): on a message list with two system messages
the Anthropic call does not fail: it forwards only the first system message
in the system field, silently drops the second, and the completion
pipeline answers 200 rather than validation_error. -/
theorem C8_two_system_messages_cex :
    callAnthropicPayload "claude-3-haiku-20240307" sysMsgs none =
      ⟨"claude-3-haiku-20240307", 2048, some "a", [⟨Role.user, "c"⟩]⟩ ∧
    validBody bodyTwoSystems = true ∧
    (completeHandler envAnthropicOk "u1" bodyTwoSystems ⟨[], []⟩ 1).status = 200 ∧
    (completeHandler envAnthropicOk "u1" bodyTwoSystems ⟨[], []⟩ 1).errorKind = none ∧
    ¬ (completeHandler envAnthropicOk "u1" bodyTwoSystems ⟨[], []⟩ 1).errorKind =
      some "validation_error" := by
  decide

/-- Claim C8 (amended): for every message list consisting of some non-system
messages followed by a system message s and a remainder, the Anthropic
payload takes the content of s (the first system message) as the system
field and forwards only the non-system messages, silently dropping every
further system message; and for every schema-valid body the completion
handler never answers validation_error, so multiple system messages are
never refused. -/
theorem C8_first_system_forwarded (model : String) (pre suf : List Message)
    (s : Message) (mt : Option ℕ)
    (hs : s.role = Role.system) (hpre : ∀ m ∈ pre, m.role ≠ Role.system) :
    (callAnthropicPayload model (pre ++ s :: suf) mt).system = some s.content ∧
    (callAnthropicPayload model (pre ++ s :: suf) mt).messages =
      pre ++ suf.filter (fun m => m.role != Role.system) ∧
    (∀ (env : CompleteEnv) uid body db counter, validBody body = true →
        ¬ (completeHandler env uid body db counter).errorKind =
          some "validation_error") := by
  have hfind : (pre ++ s :: suf).find? (fun m => m.role == Role.system) = some s := by
    induction pre with
    | nil => simp [List.find?_cons, hs]
    | cons a as ih =>
        have ha : (a.role == Role.system) = false := by
          simpa [beq_iff_eq] using hpre a (List.mem_cons_self a as)
        simp only [List.cons_append, List.find?_cons, ha]
        exact ih (fun m hm => hpre m (List.mem_cons_of_mem a hm))
  have hfilterPre : pre.filter (fun m => m.role != Role.system) = pre := by
    apply List.filter_eq_self.mpr
    intro m hm
    simpa [bne_iff_ne] using hpre m hm
  refine ⟨?_, ?_, ?_⟩
  · simp [callAnthropicPayload, hfind]
  · simp [callAnthropicPayload, List.filter_append, hfilterPre, List.filter_cons,
      hs]
  · intro env uid body db counter hv
    unfold completeHandler
    simp only [hv]
    rw [if_neg (by decide : ¬ (true = false))]
    rcases hsel : selectProviderAndModel env.cfg body.provider body.model with e | pm
    · simp only [hsel]
      simp
    · obtain ⟨p, m⟩ := pm
      simp only [hsel]
      rcases hup : env.upstream p m with e2 | resp <;> simp only [hup] <;> simp

/-- Witness for the amended C8: the two-system-message list from the
counterexample instantiates the amended statement. -/
theorem C8_first_system_forwarded_witness :
    (callAnthropicPayload "m" ([] ++ ⟨Role.system, "a"⟩ ::
        [⟨Role.system, "b"⟩, ⟨Role.user, "c"⟩]) none).system = some "a" ∧
    (callAnthropicPayload "m" ([] ++ ⟨Role.system, "a"⟩ ::
        [⟨Role.system, "b"⟩, ⟨Role.user, "c"⟩]) none).messages =
      [] ++ [⟨Role.system, "b"⟩, ⟨Role.user, "c"⟩].filter
        (fun m => m.role != Role.system) := by
  have h := C8_first_system_forwarded "m" [] [⟨Role.system, "b"⟩, ⟨Role.user, "c"⟩]
    ⟨Role.system, "a"⟩ none rfl (by intro m hm; cases hm)
  exact ⟨h.1, h.2.1⟩

/-! ## Claim C9 -/

/-- A stored key row that is revoked; its hash would even verify the
concrete token of the witness, showing the hash is never consulted. -/
def revokedKeyRow : ApiKeyRow :=
  ⟨"k1", "u1", "dom_abcdefgh1234", "dom_abcdefgh", KeyStatus.revoked⟩

/-- Claim C9 (confirmed): when every stored key whose prefix matches the
presented token is revoked, the prefix lookup of apiKeysRepo.verify returns
no candidate (so no hash comparison happens against any revoked row),
verification returns the same generic none as for a store in which those
rows do not exist at all, and the auth middleware answers the single
generic 401 unauthorized. -/
theorem C9_revoked_key_generic_unauthorized (vh : String → String → Bool)
    (keys : List ApiKeyRow) (users : List UserRow) (t : String)
    (hrev : ∀ k ∈ keys, k.keyPfx = strTake t 12 → k.status = KeyStatus.revoked)
    (hdom : strStartsWith t "dom_" = true) :
    verifyCandidates keys t = [] ∧
    apiKeysRepo_verify vh keys t = none ∧
    apiKeysRepo_verify vh keys t =
      apiKeysRepo_verify vh (keys.filter fun k => ¬ k.keyPfx = strTake t 12) t ∧
    authenticateApiKey vh keys users (some t) = Except.error ⟨401, "unauthorized"⟩ := by
  have hcand : verifyCandidates keys t = [] := by
    unfold verifyCandidates
    rw [List.filter_eq_nil_iff]
    intro k hk
    simp only [decide_eq_true_eq, not_and]
    intro hpfx hact
    have hkr := hrev k hk hpfx
    rw [hkr] at hact
    cases hact
  have hver : apiKeysRepo_verify vh keys t = none := by
    unfold apiKeysRepo_verify
    rw [hcand]
    rfl
  have hcand2 : verifyCandidates (keys.filter fun k => ¬ k.keyPfx = strTake t 12) t = [] := by
    unfold verifyCandidates
    rw [List.filter_eq_nil_iff]
    intro k hk
    have hk2 := (List.mem_filter.mp hk).2
    simp only [decide_eq_true_eq] at hk2
    simp only [decide_eq_true_eq, not_and]
    intro hpfx
    exact absurd hpfx hk2
  have hver2 : apiKeysRepo_verify vh (keys.filter fun k => ¬ k.keyPfx = strTake t 12) t
      = none := by
    unfold apiKeysRepo_verify
    rw [hcand2]
    rfl
  refine ⟨hcand, hver, hver.trans hver2.symm, ?_⟩
  simp [authenticateApiKey, hver, hdom]

/-- Witness for C9: a store holding one revoked key whose prefix and even
hash match the presented token still verifies to none and authenticates to
401 unauthorized. -/
theorem C9_revoked_key_generic_unauthorized_witness :
    verifyCandidates [revokedKeyRow] "dom_abcdefgh1234" = [] ∧
    apiKeysRepo_verify (fun h p => h == p) [revokedKeyRow] "dom_abcdefgh1234" = none ∧
    apiKeysRepo_verify (fun h p => h == p) [revokedKeyRow] "dom_abcdefgh1234" =
      apiKeysRepo_verify (fun h p => h == p)
        ([revokedKeyRow].filter fun k => ¬ k.keyPfx = strTake "dom_abcdefgh1234" 12)
        "dom_abcdefgh1234" ∧
    authenticateApiKey (fun h p => h == p) [revokedKeyRow] [⟨"u1", UserStatus.active⟩]
      (some "dom_abcdefgh1234") = Except.error ⟨401, "unauthorized"⟩ :=
  C9_revoked_key_generic_unauthorized (fun h p => h == p) [revokedKeyRow]
    [⟨"u1", UserStatus.active⟩] "dom_abcdefgh1234" (by decide) (by decide)

end Gateway
